import Mathlib

/-!
Verification of the `fastapi_motor_oil` data-access layer.

The development shallowly embeds the data model and the operations of
`src/fastapi_motor_oil/model.py` and `src/fastapi_motor_oil/service.py`.
Stateful service methods are embedded as functions from the service state
to a pair of the call descriptor emitted towards the collection handle and
the successor state; Python dictionaries become association lists, and
fallible validators return `Except`.
-/

/-- A flat BSON-like scalar value, the payload currency of the embedding. -/
inductive Val where
  | vStr (s : String)
  | vInt (n : Int)
  | vBool (b : Bool)
  | vOid (hex : String)
  | vNull
deriving DecidableEq, Repr

/-- A flat document: a Python `dict[str, Any]` as an association list. -/
abbrev Doc := List (String × Val)

/-- A MongoDB update object such as `{"$set": {...}}`: keys mapped to documents. -/
abbrev UpdateObject := List (String × Doc)

/-! ## model.py: `UTCDatetime.ensure_utc` -/

/-- A parsed Python `datetime`.  `tzinfo` is the minute offset of its fixed
timezone (`some 0` is `timezone.utc`), `none` means a naive datetime; this
matches the fixed-offset `timezone` objects produced by pydantic's
`parse_datetime`, whose equality is offset equality. -/
structure PyDatetime where
  year : Nat
  month : Nat
  day : Nat
  hour : Nat
  minute : Nat
  second : Nat
  microsecond : Nat
  tzinfo : Option Int
deriving DecidableEq, Repr

namespace UTCDatetime

/-- `UTCDatetime.ensure_utc`: naive datetimes are stamped with UTC via
`value.replace(tzinfo=timezone.utc)`, UTC-offset values are returned
unchanged, any other offset raises `ValueError("Non-UTC timezone.")`. -/
def ensure_utc (value : PyDatetime) : Except String PyDatetime :=
  match value.tzinfo with
  | none => Except.ok { value with tzinfo := some 0 }
  | some off =>
    if off = 0 then Except.ok value
    else Except.error "Non-UTC timezone."

end UTCDatetime

/-! ## model.py: `StrObjectId.validate` -/

/-- A raw Python value handed to the `StrObjectId` validator. -/
inductive RawValue where
  | str (s : String)
  | bytes (bs : List Nat)
  | oid (hex : String)
  | other
deriving DecidableEq, Repr

/-- `bson.ObjectId.is_valid`: true for an `ObjectId` instance, a 24-character
hexadecimal string, or a 12-byte bytes value; false for everything else. -/
def ObjectId.is_valid : RawValue → Bool
  | RawValue.str s => s.length == 24 && s.toList.all (fun c => c.isDigit || (c ≥ 'a' && c ≤ 'f') || (c ≥ 'A' && c ≤ 'F'))
  | RawValue.bytes bs => bs.length == 12
  | RawValue.oid _ => true
  | RawValue.other => false

namespace StrObjectId

/-- `StrObjectId.validate`: raises `ValueError("Invalid StrObjectId")` when
`ObjectId.is_valid` rejects the value, otherwise returns `cls(value)`; the
constructed identifier is represented by the validated raw value it wraps. -/
def validate (value : RawValue) : Except String RawValue :=
  if ObjectId.is_valid value then Except.ok value
  else Except.error "Invalid StrObjectId"

end StrObjectId

/-! ## service.py: update/insert models and the pydantic `dict` serializations -/

/-- One field of a pydantic model instance: its name, its current value and
whether the caller explicitly set it (membership in `__fields_set__`). -/
structure ModelField where
  name : String
  value : Val
  explicitlySet : Bool
deriving DecidableEq, Repr

/-- A pydantic model instance as a sequence of fields. -/
structure PydanticModel where
  fields : List ModelField
deriving DecidableEq, Repr

/-- `data.dict()`: serialize every field of the model. -/
def PydanticModel.dictAll (m : PydanticModel) : Doc :=
  m.fields.map (fun f => (f.name, f.value))

/-- `data.dict(exclude_unset=True)`: serialize only the explicitly set fields. -/
def PydanticModel.dictExcludeUnset (m : PydanticModel) : Doc :=
  m.fields.filterMap (fun f => if f.explicitlySet then some (f.name, f.value) else none)

/-! ## service.py: the `MongoService` state and the calls it emits

Each service method is embedded as a function from the service state to the
call descriptor it sends to the collection handle together with the successor
state.  A call descriptor records the resolved handle, the method name on the
handle, the positional arguments and the keyword arguments, so that the
payload/option forwarding claims become equalities over descriptors. -/

/-- The collection handle returned by
`database.get_collection(collection_name, **(collection_options or {}))`:
the identity of the database handle, the collection name and the options
mapping it was built from. -/
structure CollectionHandle where
  databaseId : Nat
  name : String
  options : Doc
deriving DecidableEq, Repr

/-- The `__slots__` state of a `MongoService` instance. -/
structure MongoService where
  _database : Nat
  _collection_name : String
  _collection_options : Option Doc
  _collection : Option CollectionHandle
deriving DecidableEq, Repr

/-- A positional argument of a call on the collection handle. -/
inductive Arg where
  | aDoc (d : Option Doc)
  | aUpdate (u : UpdateObject)
  | aStr (s : String)
  | aSession (s : Option Nat)
deriving DecidableEq, Repr

/-- One call emitted to the collection handle: the handle, the method name,
the positional arguments and the keyword arguments. -/
structure CollCall where
  target : CollectionHandle
  method : String
  args : List Arg
  kwargs : Doc
deriving DecidableEq, Repr

/-- The value a session argument has when passed by keyword: `None` or the
session object (identified by a number). -/
def sessionVal : Option Nat → Val
  | none => Val.vNull
  | some n => Val.vInt n

namespace MongoService

/-- `MongoService._create_collection`:
`self._database.get_collection(self._collection_name, **(self._collection_options or {}))`. -/
def _create_collection (s : MongoService) : CollectionHandle :=
  { databaseId := s._database
    name := s._collection_name
    options := s._collection_options.getD [] }

/-- The `collection` property: create and cache the handle on first access,
return the cached handle afterwards. -/
def collection (s : MongoService) : CollectionHandle × MongoService :=
  match s._collection with
  | none =>
    let c := s._create_collection
    (c, { s with _collection := some c })
  | some c => (c, s)

/-- `MongoService._prepare_for_insert`: `data.dict()`. -/
def _prepare_for_insert (data : PydanticModel) : Doc :=
  data.dictAll

/-- `MongoService._prepare_for_update`: `{"$set": data.dict(exclude_unset=True)}`. -/
def _prepare_for_update (data : PydanticModel) : UpdateObject :=
  [("$set", data.dictExcludeUnset)]

/-- `MongoService.delete_one`: `self.collection.delete_one(query, **(options or {}))`. -/
def delete_one (s : MongoService) (query : Option Doc) (options : Option Doc) :
    CollCall × MongoService :=
  let (c, s') := s.collection
  ({ target := c, method := "delete_one", args := [Arg.aDoc query],
     kwargs := options.getD [] }, s')

/-- `MongoService.delete_many`: `self.collection.delete_many(query, **(options or {}))`. -/
def delete_many (s : MongoService) (query : Option Doc) (options : Option Doc) :
    CollCall × MongoService :=
  let (c, s') := s.collection
  ({ target := c, method := "delete_many", args := [Arg.aDoc query],
     kwargs := options.getD [] }, s')

/-- `MongoService.delete_by_id`: `self.delete_one({"_id": id}, options=options)`. -/
def delete_by_id (s : MongoService) (id : Val) (options : Option Doc) :
    CollCall × MongoService :=
  s.delete_one (some [("_id", id)]) options

/-- `MongoService.find`: `self.collection.find(query, projection, **(options or {}))`. -/
def find (s : MongoService) (query : Option Doc) (projection : Option Doc)
    (options : Option Doc) : CollCall × MongoService :=
  let (c, s') := s.collection
  ({ target := c, method := "find", args := [Arg.aDoc query, Arg.aDoc projection],
     kwargs := options.getD [] }, s')

/-- `MongoService.find_one`: `self.collection.find_one(query, projection, **(options or {}))`. -/
def find_one (s : MongoService) (query : Option Doc) (projection : Option Doc)
    (options : Option Doc) : CollCall × MongoService :=
  let (c, s') := s.collection
  ({ target := c, method := "find_one", args := [Arg.aDoc query, Arg.aDoc projection],
     kwargs := options.getD [] }, s')

/-- `MongoService.get_by_id`: `self.find_one({"_id": id}, projection, options=options)`. -/
def get_by_id (s : MongoService) (id : Val) (projection : Option Doc)
    (options : Option Doc) : CollCall × MongoService :=
  s.find_one (some [("_id", id)]) projection options

/-- `MongoService.insert_one`:
`self.collection.insert_one(self._prepare_for_insert(data), **(options or {}))`. -/
def insert_one (s : MongoService) (data : PydanticModel) (options : Option Doc) :
    CollCall × MongoService :=
  let (c, s') := s.collection
  ({ target := c, method := "insert_one", args := [Arg.aDoc (some (_prepare_for_insert data))],
     kwargs := options.getD [] }, s')

/-- `MongoService.update_one`:
`self.collection.update_one(query, self._prepare_for_update(changes), **(options or {}))`. -/
def update_one (s : MongoService) (query : Option Doc) (changes : PydanticModel)
    (options : Option Doc) : CollCall × MongoService :=
  let (c, s') := s.collection
  ({ target := c, method := "update_one",
     args := [Arg.aDoc query, Arg.aUpdate (_prepare_for_update changes)],
     kwargs := options.getD [] }, s')

/-- `MongoService.update_many`:
`self.collection.update_many(query, self._prepare_for_update(changes), **(options or {}))`. -/
def update_many (s : MongoService) (query : Option Doc) (changes : PydanticModel)
    (options : Option Doc) : CollCall × MongoService :=
  let (c, s') := s.collection
  ({ target := c, method := "update_many",
     args := [Arg.aDoc query, Arg.aUpdate (_prepare_for_update changes)],
     kwargs := options.getD [] }, s')

/-- `MongoService.update_by_id`: `self.update_one({"_id": id}, changes, options=options)`. -/
def update_by_id (s : MongoService) (id : Val) (changes : PydanticModel)
    (options : Option Doc) : CollCall × MongoService :=
  s.update_one (some [("_id", id)]) changes options

/-- `MongoService.create_index`: forwards `keys` positionally and always passes
`name`, `unique`, `session`, `background`, `collation` and `sparse` by keyword
(the Python signature declares defaults `unique=False`, `session=None`,
`background=False`, `collation=None`, `sparse=False` that fill in when the
caller omits them), followed by any extra `**kwargs`. -/
def create_index (s : MongoService) (keys : String) (name : String) (unique : Bool)
    (session : Option Nat) (background : Bool) (collation : Option Val)
    (sparse : Bool) (kwargs : Doc) : CollCall × MongoService :=
  let (c, s') := s.collection
  ({ target := c, method := "create_index", args := [Arg.aStr keys],
     kwargs := [("name", Val.vStr name), ("unique", Val.vBool unique),
       ("session", sessionVal session), ("background", Val.vBool background),
       ("collation", collation.getD Val.vNull), ("sparse", Val.vBool sparse)] ++ kwargs }, s')

/-- A `create_index` call in which the caller supplies only `keys` and `name`,
leaving every optional parameter unset: Python substitutes the declared
defaults of the service method's signature. -/
def create_index_with_defaults (s : MongoService) (keys : String) (name : String) :
    CollCall × MongoService :=
  s.create_index keys name false none false none false []

/-- `MongoService.drop_index`:
`self.collection.drop_index(index_or_name, session=session, **kwargs)`. -/
def drop_index (s : MongoService) (index_or_name : String) (session : Option Nat)
    (kwargs : Doc) : CollCall × MongoService :=
  let (c, s') := s.collection
  ({ target := c, method := "drop_index", args := [Arg.aStr index_or_name],
     kwargs := ("session", sessionVal session) :: kwargs }, s')

/-- `MongoService.drop_indexes`: the body is
`self.collection.drop_index(session, **kwargs)` — it invokes the handle's
single-index `drop_index` with the session as the sole positional argument
(the `index_or_name` parameter), not the handle's `drop_indexes`. -/
def drop_indexes (s : MongoService) (session : Option Nat) (kwargs : Doc) :
    CollCall × MongoService :=
  let (c, s') := s.collection
  ({ target := c, method := "drop_index", args := [Arg.aSession session],
     kwargs := kwargs }, s')

/-- `MongoService.list_indexes`: `self.collection.list_indexes(session, **kwargs)`. -/
def list_indexes (s : MongoService) (session : Option Nat) (kwargs : Doc) :
    CollCall × MongoService :=
  let (c, s') := s.collection
  ({ target := c, method := "list_indexes", args := [Arg.aSession session],
     kwargs := kwargs }, s')

end MongoService

/-! ## Concrete instances used by witnesses and counterexamples -/

/-- A fresh service instance whose collection handle is not yet resolved. -/
def svc0 : MongoService :=
  { _database := 0, _collection_name := "items",
    _collection_options := some [("read_preference", Val.vStr "primary")],
    _collection := none }

/-- A collection handle used to exercise the cached-reuse path. -/
def handle1 : CollectionHandle := { databaseId := 7, name := "cached", options := [] }

/-- A service instance whose collection handle is already cached. -/
def svc1 : MongoService :=
  { _database := 1, _collection_name := "other", _collection_options := none,
    _collection := some handle1 }

/-! ## Claims -/

/-- C1: the default `_prepare_for_update`, applied to any update-model
instance, produces exactly one `"$set"` directive whose document contains
every explicitly set field of the model and no other field (fields left
unset are omitted even when they hold non-null defaults), and `update_one`
and `update_many` send exactly this prepared payload to the collection
handle. -/
theorem C1_prepare_for_update_set_of_explicit_fields (m : PydanticModel)
    (s : MongoService) (q : Option Doc) (opts : Option Doc) :
    (∃ d : Doc, MongoService._prepare_for_update m = [("$set", d)] ∧
      ∀ n v, (n, v) ∈ d ↔ ∃ f ∈ m.fields, f.explicitlySet = true ∧ f.name = n ∧ f.value = v) ∧
    (s.update_one q m opts).1.args = [Arg.aDoc q, Arg.aUpdate (MongoService._prepare_for_update m)] ∧
    (s.update_many q m opts).1.args = [Arg.aDoc q, Arg.aUpdate (MongoService._prepare_for_update m)] := by
  refine ⟨⟨m.dictExcludeUnset, rfl, ?_⟩, rfl, rfl⟩
  intro n v
  simp only [PydanticModel.dictExcludeUnset, List.mem_filterMap]
  constructor
  · rintro ⟨f, hf, heq⟩
    by_cases hs : f.explicitlySet
    · simp only [hs, if_true] at heq
      exact ⟨f, hf, hs, (Prod.mk.injEq _ _ _ _).mp (Option.some.inj heq) |>.1,
        (Prod.mk.injEq _ _ _ _).mp (Option.some.inj heq) |>.2⟩
    · simp [hs] at heq
  · rintro ⟨f, hf, hs, hn, hv⟩
    exact ⟨f, hf, by simp [hs, hn, hv]⟩

/-- C2: the claim says `drop_indexes` drops all indexes on the collection;
the code instead invokes the collection handle's single-index `drop_index`
with the session as the `index_or_name` positional argument.  Evaluated at a
concrete service with `session=None`: the emitted call is
`drop_index(None)`, not a drop-all-indexes call. -/
theorem C2_drop_indexes_calls_drop_index :
    (svc0.drop_indexes none []).1.method = "drop_index" ∧
    (svc0.drop_indexes none []).1.args = [Arg.aSession none] :=
  ⟨rfl, rfl⟩

/-- C3: `update_by_id id changes opts` is the same function of the service
state as `update_one {"_id": id} changes opts` — the emitted call (payload,
options, target, method) and the successor state coincide. -/
theorem C3_update_by_id_is_update_one (s : MongoService) (id : Val)
    (changes : PydanticModel) (opts : Option Doc) :
    s.update_by_id id changes opts = s.update_one (some [("_id", id)]) changes opts :=
  rfl

/-- C4: `delete_by_id id opts` equals `delete_one {"_id": id} opts` and
`get_by_id id projection opts` equals `find_one {"_id": id} projection opts`,
with the reserved identifier field name `"_id"`. -/
theorem C4_by_id_wrappers (s : MongoService) (id : Val) (projection : Option Doc)
    (opts : Option Doc) :
    s.delete_by_id id opts = s.delete_one (some [("_id", id)]) opts ∧
    s.get_by_id id projection opts = s.find_one (some [("_id", id)]) projection opts :=
  ⟨rfl, rfl⟩

/-- C5: `ensure_utc` on a parsed datetime with no offset succeeds, setting the
offset to UTC while leaving every wall-clock field unchanged; on a datetime
whose offset is already UTC it returns the value unchanged. -/
theorem C5_ensure_utc_success (d : PyDatetime) :
    (d.tzinfo = none →
      UTCDatetime.ensure_utc d = Except.ok { d with tzinfo := some 0 }) ∧
    (d.tzinfo = some 0 → UTCDatetime.ensure_utc d = Except.ok d) := by
  constructor
  · intro h
    simp [UTCDatetime.ensure_utc, h]
  · intro h
    simp [UTCDatetime.ensure_utc, h]

/-- Witness for C5 at concrete inputs: a naive datetime is stamped with UTC
and a UTC datetime is returned unchanged. -/
theorem C5_ensure_utc_success_witness :
    UTCDatetime.ensure_utc ⟨2024, 1, 1, 0, 0, 0, 0, none⟩ =
      Except.ok ⟨2024, 1, 1, 0, 0, 0, 0, some 0⟩ ∧
    UTCDatetime.ensure_utc ⟨2024, 1, 1, 12, 30, 5, 9, some 0⟩ =
      Except.ok ⟨2024, 1, 1, 12, 30, 5, 9, some 0⟩ :=
  ⟨(C5_ensure_utc_success ⟨2024, 1, 1, 0, 0, 0, 0, none⟩).1 rfl,
   (C5_ensure_utc_success ⟨2024, 1, 1, 12, 30, 5, 9, some 0⟩).2 rfl⟩

/-- C6: `ensure_utc` on a parsed datetime carrying a non-UTC offset fails
with the `ValueError` message `"Non-UTC timezone."`; it never converts. -/
theorem C6_ensure_utc_rejects_non_utc (d : PyDatetime) (off : Int)
    (hoff : d.tzinfo = some off) (hne : off ≠ 0) :
    UTCDatetime.ensure_utc d = Except.error "Non-UTC timezone." := by
  simp [UTCDatetime.ensure_utc, hoff, hne]

/-- Witness for C6 at the offset `+05:00` (300 minutes). -/
theorem C6_ensure_utc_rejects_non_utc_witness :
    UTCDatetime.ensure_utc ⟨2024, 1, 1, 0, 0, 0, 0, some 300⟩ =
      Except.error "Non-UTC timezone." :=
  C6_ensure_utc_rejects_non_utc ⟨2024, 1, 1, 0, 0, 0, 0, some 300⟩ 300 rfl (by decide)

/-- C7: `StrObjectId.validate` fails with the validation error
`"Invalid StrObjectId"` on every raw value rejected by `ObjectId.is_valid`
and succeeds on every accepted raw value. -/
theorem C7_validate_follows_is_valid (v : RawValue) :
    (ObjectId.is_valid v = false →
      StrObjectId.validate v = Except.error "Invalid StrObjectId") ∧
    (ObjectId.is_valid v = true → StrObjectId.validate v = Except.ok v) := by
  constructor
  · intro h
    simp [StrObjectId.validate, h]
  · intro h
    simp [StrObjectId.validate, h]

/-- Witness for C7: a 10-character string is rejected and a 24-character
hexadecimal string is accepted. -/
theorem C7_validate_follows_is_valid_witness :
    StrObjectId.validate (RawValue.str "0123456789") =
      Except.error "Invalid StrObjectId" ∧
    StrObjectId.validate (RawValue.str "0123456789abcdef01234567") =
      Except.ok (RawValue.str "0123456789abcdef01234567") :=
  ⟨(C7_validate_follows_is_valid (RawValue.str "0123456789")).1 (by decide),
   (C7_validate_follows_is_valid (RawValue.str "0123456789abcdef01234567")).2 (by decide)⟩

/-- C8: the collection handle is resolved lazily on first access, exactly
once, from the database handle, collection name and collection options
(`_create_collection`); when a handle is already cached it is returned with
the state untouched — regardless of the configuration fields, so the
configuration is never re-read; a second access after the first reuses the
cached handle; and operations route through this property (their target is
the resolved handle and their successor state is the post-access state). -/
theorem C8_lazy_cached_collection (s : MongoService) :
    (s._collection = none →
      s.collection = (s._create_collection, { s with _collection := some s._create_collection })) ∧
    (∀ c, s._collection = some c → s.collection = (c, s)) ∧
    (s.collection.2.collection = (s.collection.1, s.collection.2)) ∧
    (∀ q opts, (s.delete_one q opts).1.target = s.collection.1 ∧
      (s.delete_one q opts).2 = s.collection.2) := by
  refine ⟨?_, ?_, ?_, fun q opts => ⟨rfl, rfl⟩⟩
  · intro h
    simp [MongoService.collection, h]
  · intro c h
    simp [MongoService.collection, h]
  · cases h : s._collection with
    | none => simp [MongoService.collection, h]
    | some c => simp [MongoService.collection, h]

/-- Witness for C8: the fresh service `svc0` resolves its handle from its
configuration on first access, and the pre-cached service `svc1` returns its
cached handle with the state unchanged. -/
theorem C8_lazy_cached_collection_witness :
    svc0.collection =
      (svc0._create_collection, { svc0 with _collection := some svc0._create_collection }) ∧
    svc1.collection = (handle1, svc1) :=
  ⟨(C8_lazy_cached_collection svc0).1 rfl,
   (C8_lazy_cached_collection svc1).2.1 handle1 rfl⟩

/-- C9 counterexample: the claim says that for every public operation an
option the caller leaves unset is not forwarded to the collection handle; but
a `create_index` call in which the caller supplies only `keys` and `name`
forwards `unique=False`, `session=None`, `background=False`, `collation=None`
and `sparse=False` — Service-chosen defaults for options the caller never
set. -/
theorem C9_create_index_forwards_defaults :
    (svc0.create_index_with_defaults "field" "idx").1.kwargs =
      [("name", Val.vStr "idx"), ("unique", Val.vBool false), ("session", Val.vNull),
       ("background", Val.vBool false), ("collation", Val.vNull),
       ("sparse", Val.vBool false)] :=
  rfl

/-- C9 amended: the operations that take an options mapping (delete, find,
insert, update and the by-id variants) forward exactly the caller-provided
entries — nothing when the mapping is unset; the index-management operations
with named parameters (`create_index`, `drop_index`) instead always forward
those named parameters, substituting the method signature's own defaults
(`False`/`None`) when the caller leaves them unset. -/
theorem C9_option_forwarding (s : MongoService) (q projection : Option Doc)
    (m : PydanticModel) (opts : Option Doc) (id : Val) (keys name ixname : String)
    (session : Option Nat) (kw : Doc) :
    (s.delete_one q opts).1.kwargs = opts.getD [] ∧
    (s.delete_many q opts).1.kwargs = opts.getD [] ∧
    (s.delete_by_id id opts).1.kwargs = opts.getD [] ∧
    (s.find q projection opts).1.kwargs = opts.getD [] ∧
    (s.find_one q projection opts).1.kwargs = opts.getD [] ∧
    (s.get_by_id id projection opts).1.kwargs = opts.getD [] ∧
    (s.insert_one m opts).1.kwargs = opts.getD [] ∧
    (s.update_one q m opts).1.kwargs = opts.getD [] ∧
    (s.update_many q m opts).1.kwargs = opts.getD [] ∧
    (s.update_by_id id m opts).1.kwargs = opts.getD [] ∧
    (s.create_index_with_defaults keys name).1.kwargs =
      [("name", Val.vStr name), ("unique", Val.vBool false), ("session", Val.vNull),
       ("background", Val.vBool false), ("collation", Val.vNull),
       ("sparse", Val.vBool false)] ∧
    (s.drop_index ixname session kw).1.kwargs = ("session", sessionVal session) :: kw :=
  ⟨rfl, rfl, rfl, rfl, rfl, rfl, rfl, rfl, rfl, rfl, rfl, rfl⟩

/-- C10: when no field of the update model was explicitly set, the default
`_prepare_for_update` yields `{"$set": {}}`, and `update_one`, `update_many`
and `update_by_id` still emit their update call to the store with that empty
set-document as the payload. -/
theorem C10_empty_update_still_sent (m : PydanticModel)
    (h : ∀ f ∈ m.fields, f.explicitlySet = false)
    (s : MongoService) (q : Option Doc) (id : Val) (opts : Option Doc) :
    MongoService._prepare_for_update m = [("$set", [])] ∧
    (s.update_one q m opts).1.method = "update_one" ∧
    (s.update_one q m opts).1.args = [Arg.aDoc q, Arg.aUpdate [("$set", [])]] ∧
    (s.update_many q m opts).1.args = [Arg.aDoc q, Arg.aUpdate [("$set", [])]] ∧
    (s.update_by_id id m opts).1.args =
      [Arg.aDoc (some [("_id", id)]), Arg.aUpdate [("$set", [])]] := by
  have hd : m.dictExcludeUnset = [] := by
    refine List.filterMap_eq_nil_iff.mpr ?_
    intro f hf
    simp [h f hf]
  refine ⟨?_, rfl, ?_, ?_, ?_⟩ <;>
    simp [MongoService._prepare_for_update, MongoService.update_one,
      MongoService.update_many, MongoService.update_by_id, hd]

/-- Witness for C10: a one-field model whose field was left unset. -/
theorem C10_empty_update_still_sent_witness :
    MongoService._prepare_for_update ⟨[⟨"a", Val.vInt 1, false⟩]⟩ = [("$set", [])] ∧
    (svc0.update_one none ⟨[⟨"a", Val.vInt 1, false⟩]⟩ none).1.method = "update_one" ∧
    (svc0.update_one none ⟨[⟨"a", Val.vInt 1, false⟩]⟩ none).1.args =
      [Arg.aDoc none, Arg.aUpdate [("$set", [])]] ∧
    (svc0.update_many none ⟨[⟨"a", Val.vInt 1, false⟩]⟩ none).1.args =
      [Arg.aDoc none, Arg.aUpdate [("$set", [])]] ∧
    (svc0.update_by_id (Val.vOid "0123456789abcdef01234567")
        ⟨[⟨"a", Val.vInt 1, false⟩]⟩ none).1.args =
      [Arg.aDoc (some [("_id", Val.vOid "0123456789abcdef01234567")]),
       Arg.aUpdate [("$set", [])]] :=
  C10_empty_update_still_sent ⟨[⟨"a", Val.vInt 1, false⟩]⟩ (by decide) svc0 none
    (Val.vOid "0123456789abcdef01234567") none
